import Mathlib

/-!
Verification of the Impeller GLES procedure table
(`impeller/renderer/backend/gles/proc_table_gles.h`).

The header contains inline code for the scoped error check (`AutoErrorCheck`),
the typed procedure slot (`GLProc`: call operator, `IsAvailable`, `Reset`),
the slot initializer macro (`IMPELLER_PROC`), and the two macro-enumerated
symbol lists.  The out-of-line member definitions of `ProcTableGLES`
(constructor, `IsValid`, `GLErrorToString`, the framebuffer introspection
routines and `SetDebugLabel`) are not part of the excerpt; those are modelled
from the specification and marked as such in their doc comments.

Function pointers are embedded as `Option`-valued Lean functions (`none` is a
null pointer); table-level function pointers are abstract addresses
(`Option Nat`).  Observable driver interaction of a single slot call is made
explicit as a trace of events, and "fatal process termination" (`FML_CHECK`
failure) is an explicit outcome constructor.
-/

namespace ProcTableGles

/-- GL_NO_ERROR, the driver's "no error" code. -/
def GL_NO_ERROR : Nat := 0

/-- GL_INVALID_ENUM error code. -/
def GL_INVALID_ENUM : Nat := 1280

/-- GL_INVALID_VALUE error code. -/
def GL_INVALID_VALUE : Nat := 1281

/-- GL_INVALID_OPERATION error code. -/
def GL_INVALID_OPERATION : Nat := 1282

/-- GL_STACK_OVERFLOW error code. -/
def GL_STACK_OVERFLOW : Nat := 1283

/-- GL_STACK_UNDERFLOW error code. -/
def GL_STACK_UNDERFLOW : Nat := 1284

/-- GL_OUT_OF_MEMORY error code. -/
def GL_OUT_OF_MEMORY : Nat := 1285

/-- GL_INVALID_FRAMEBUFFER_OPERATION error code. -/
def GL_INVALID_FRAMEBUFFER_OPERATION : Nat := 1286

/-- GL_FRAMEBUFFER_COMPLETE, the driver's "framebuffer complete" sentinel. -/
def GL_FRAMEBUFFER_COMPLETE : Nat := 36053

/-- The defined generic representation for an unrecognized error code. -/
def unknownGLErrorString : String := "Unknown GL Error"

/-- The known enumeration of driver error codes. -/
def knownGLErrorCodes : List Nat :=
  [GL_NO_ERROR, GL_INVALID_ENUM, GL_INVALID_VALUE, GL_INVALID_OPERATION,
   GL_STACK_OVERFLOW, GL_STACK_UNDERFLOW, GL_OUT_OF_MEMORY,
   GL_INVALID_FRAMEBUFFER_OPERATION]

/-- Modelled from the spec: the error translator `GLErrorToString` is only
declared in the header (`const char* GLErrorToString(GLenum value);`); its body
is not part of the excerpt.  Per the spec it is a pure, total function mapping
each driver error code of the known enumeration to a stable human-readable
identifier string, and any code outside the known enumeration to a generic
"unknown error" representation. -/
def GLErrorToString (value : Nat) : String :=
  if value = GL_NO_ERROR then "GL_NO_ERROR"
  else if value = GL_INVALID_ENUM then "GL_INVALID_ENUM"
  else if value = GL_INVALID_VALUE then "GL_INVALID_VALUE"
  else if value = GL_INVALID_OPERATION then "GL_INVALID_OPERATION"
  else if value = GL_STACK_OVERFLOW then "GL_STACK_OVERFLOW"
  else if value = GL_STACK_UNDERFLOW then "GL_STACK_UNDERFLOW"
  else if value = GL_OUT_OF_MEMORY then "GL_OUT_OF_MEMORY"
  else if value = GL_INVALID_FRAMEBUFFER_OPERATION then
    "GL_INVALID_FRAMEBUFFER_OPERATION"
  else unknownGLErrorString

/-- The fatal diagnostic `FML_CHECK` streams in `AutoErrorCheck::~AutoErrorCheck`:
`"GL Error " << GLErrorToString(error) << "(" << error << ")"
 << " encountered on call to " << name`. -/
def glFatalMessage (error : Nat) (name : String) : String :=
  "GL Error " ++ GLErrorToString error ++ "(" ++ toString error ++ ")"
    ++ " encountered on call to " ++ name

/-- `AutoErrorCheck` (header, lines 20-35): a scope guard holding an optional
error-query function pointer and the guarded call's name.  The error-query
function pointer is embedded as `Option (Unit → Nat)`. -/
structure AutoErrorCheck where
  error_fn : Option (Unit → Nat)
  name : String

/-- The destructor `~AutoErrorCheck` (header, lines 27-34).  It returns a pair:
whether the error-query function was invoked, and `some diagnostic` when
`FML_CHECK(error == GL_NO_ERROR)` fails (fatal process termination) or `none`
when scope exit continues normally. -/
def AutoErrorCheck.destruct (a : AutoErrorCheck) : Bool × Option String :=
  match a.error_fn with
  | none => (false, none)
  | some q =>
    let error := q ()
    if error = GL_NO_ERROR then (true, none)
    else (true, some (glFatalMessage error a.name))

/-- An observable event of one slot invocation: the underlying driver function
being called, or the error-query function being called. -/
inductive GLEvent where
  | fnCall
  | errQuery
deriving DecidableEq, Repr

/-- Outcome of one slot invocation: a normal return value, fatal termination by
the scoped error check, or the undefined behavior of calling through a null
function pointer. -/
inductive Outcome (β : Type) where
  | ok (result : β)
  | fatal (msg : String)
  | nullDeref
deriving DecidableEq, Repr

/-- `GLProc<T>` (header, lines 37-76): a typed procedure slot with a name, a
function pointer of the slot's signature, and an optional error-query function
pointer; each pointer defaults to null. -/
structure GLProc (α β : Type) where
  name : Option String := none
  function : Option (α → β) := none
  error_fn : Option (Unit → Nat) := none

/-- `GLProc::IsAvailable` (header, line 69): `function != nullptr`. -/
def GLProc.IsAvailable {α β : Type} (p : GLProc α β) : Bool :=
  p.function.isSome

/-- `GLProc::Reset` (header, lines 71-75): sets `name`, `function` and
`error_fn` to null. -/
def GLProc.Reset {α β : Type} (_p : GLProc α β) : GLProc α β :=
  { name := none, function := none, error_fn := none }

/-- `GLProc::operator()` (header, lines 63-67): constructs an
`AutoErrorCheck(error_fn, name)`, then evaluates `function(args...)`; the
guard's destructor runs on scope exit, after the underlying call.  The result
is the outcome together with the trace of driver interactions, in order.  A
null `function` pointer is dereferenced unconditionally: that is the
`nullDeref` outcome with an empty trace. -/
def GLProc.callOp {α β : Type} (p : GLProc α β) (arg : α) :
    Outcome β × List GLEvent :=
  match p.function with
  | none => (Outcome.nullDeref, [])
  | some f =>
    let r := f arg
    match (AutoErrorCheck.mk p.error_fn (p.name.getD "")).destruct with
    | (false, _) => (Outcome.ok r, [GLEvent.fnCall])
    | (true, none) => (Outcome.ok r, [GLEvent.fnCall, GLEvent.errQuery])
    | (true, some msg) => (Outcome.fatal msg, [GLEvent.fnCall, GLEvent.errQuery])

/-- The core (required) symbol list `FOR_EACH_IMPELLER_PROC`
(header, lines 78-141), in declaration order. -/
def coreProcNames : List String :=
  ["ActiveTexture", "AttachShader", "BindAttribLocation", "BindBuffer",
   "BindTexture", "BlendEquationSeparate", "BlendFuncSeparate", "BufferData",
   "CheckFramebufferStatus", "Clear", "ClearColor", "ClearDepthf",
   "ClearStencil", "ColorMask", "CompileShader", "CreateProgram",
   "CreateShader", "CullFace", "DeleteBuffers", "DeleteProgram",
   "DeleteShader", "DeleteTextures", "DepthFunc", "DepthMask", "DepthRangef",
   "DetachShader", "Disable", "DisableVertexAttribArray", "DrawElements",
   "Enable", "EnableVertexAttribArray", "FrontFace", "GenBuffers",
   "GenTextures", "GetActiveUniform", "GetBooleanv", "GetFloatv",
   "GetFramebufferAttachmentParameteriv", "GetIntegerv", "GetProgramiv",
   "GetShaderInfoLog", "GetShaderiv", "GetString", "GetUniformLocation",
   "IsFramebuffer", "IsProgram", "LinkProgram", "Scissor", "ShaderBinary",
   "ShaderSource", "StencilFuncSeparate", "StencilMaskSeparate",
   "StencilOpSeparate", "TexImage2D", "TexParameteri", "Uniform1fv",
   "Uniform1i", "Uniform2fv", "Uniform4fv", "UniformMatrix4fv", "UseProgram",
   "VertexAttribPointer", "Viewport"]

/-- The extension (optional) symbol list `FOR_EACH_IMPELLER_EXT_PROC`
(header, lines 143-146). -/
def extProcNames : List String :=
  ["PushDebugGroupKHR", "PopDebugGroupKHR", "ObjectLabelKHR"]

/-- A table-level slot: the slot's name and the two pointers, with function
addresses kept abstract as `Option Nat` (`none` is a null pointer). -/
structure Slot where
  name : Option String := none
  function : Option Nat := none
  error_fn : Option Nat := none
deriving DecidableEq, Repr

/-- Slot availability at table level, mirroring `GLProc::IsAvailable`. -/
def Slot.IsAvailable (s : Slot) : Bool :=
  s.function.isSome

/-- The member initializer produced by the `IMPELLER_PROC` macro
(header, lines 162-163): `GLProc<decltype(gl##name)> name = {"gl" #name, nullptr};`
with the error-query binding left at its default null
(header, line 55). -/
def declareSlot (declaredName : String) : Slot :=
  { name := some ("gl" ++ declaredName), function := none, error_fn := none }

/-- All declared slots (core then extension), as produced by expanding
`IMPELLER_PROC` over both lists (header, lines 165-166), paired with their
declared (unprefixed) names. -/
def declaredSlots : List (String × Slot) :=
  (coreProcNames ++ extProcNames).map (fun n => (n, declareSlot n))

/-- Modelled from the spec: the `ProcTableGLES` constructor body is not part of
the excerpt.  Per the spec it invokes the resolver with the driver-prefixed
("gl") name of every declared core and extension symbol, stores the returned
address in that slot's function pointer, and leaves extension-slot error-query
bindings unset. -/
def resolveSlot (resolver : String → Option Nat) (declaredName : String) :
    Slot :=
  { declareSlot declaredName with function := resolver ("gl" ++ declaredName) }

/-- `ProcTableGLES` (header, lines 155-189): the core and extension slot sets
and the validity flag `is_valid_`. -/
structure ProcTableGLES where
  coreSlots : List (String × Slot)
  extSlots : List (String × Slot)
  is_valid : Bool
deriving DecidableEq, Repr

/-- Modelled from the spec: the `ProcTableGLES(Resolver)` constructor body is
not part of the excerpt.  Per the spec construction resolves every core and
extension slot through the resolver under the "gl"-prefixed name, then computes
the validity flag as "true iff every core slot resolved to non-null";
extension slots are excluded from that check. -/
def constructTable (resolver : String → Option Nat) : ProcTableGLES :=
  let core := coreProcNames.map (fun n => (n, resolveSlot resolver n))
  let ext := extProcNames.map (fun n => (n, resolveSlot resolver n))
  { coreSlots := core
    extSlots := ext
    is_valid := core.all (fun s => s.2.IsAvailable) }

/-- `ProcTableGLES::IsValid` (header, line 170): returns the flag computed at
construction. -/
def ProcTableGLES.IsValid (t : ProcTableGLES) : Bool :=
  t.is_valid

/-- Modelled from the spec: `IsCurrentFramebufferComplete` is only declared in
the header (line 178); its body is not part of the excerpt.  Per the spec it
returns whether the completeness-status slot reports the driver's "complete"
sentinel, and returns false without crashing when the slot is unavailable.
The completeness-status slot is embedded as the optional query function it
would call. -/
def IsCurrentFramebufferComplete (checkStatus : Option (Unit → Nat)) : Bool :=
  match checkStatus with
  | none => false
  | some q => decide (q () = GL_FRAMEBUFFER_COMPLETE)

/-- The defined "no information available" framebuffer description. -/
def noFramebufferInfoString : String :=
  "No framebuffer information available."

/-- Renders a completeness status code for the framebuffer description. -/
def framebufferStatusString (status : Nat) : String :=
  if status = GL_FRAMEBUFFER_COMPLETE then "Framebuffer is complete."
  else "Framebuffer is incomplete (status " ++ toString status ++ ")."

/-- Modelled from the spec: `DescribeCurrentFramebuffer` is only declared in
the header (line 176); its body is not part of the excerpt.  Per the spec it
summarizes the bound framebuffer's attachment state by querying the
attachment-parameter and completeness-status slots, must not crash when
optional query slots are unavailable, and degrades to a partial description
noting what could not be queried; with every introspection slot unavailable it
returns the defined "no information available" description.  The two slots are
embedded as the optional query functions they would call (the
attachment-parameter query keyed by attachment enum). -/
def DescribeCurrentFramebuffer (attachmentQuery : Option (Nat → Nat))
    (statusQuery : Option (Unit → Nat)) : String :=
  match attachmentQuery, statusQuery with
  | none, none => noFramebufferInfoString
  | some a, none =>
      "Color attachment type " ++ toString (a 0)
        ++ ", depth attachment type " ++ toString (a 1)
        ++ ", stencil attachment type " ++ toString (a 2)
        ++ ". Completeness status could not be queried."
  | none, some s =>
      "Attachment state could not be queried. "
        ++ framebufferStatusString (s ())
  | some a, some s =>
      "Color attachment type " ++ toString (a 0)
        ++ ", depth attachment type " ++ toString (a 1)
        ++ ", stencil attachment type " ++ toString (a 2)
        ++ ". " ++ framebufferStatusString (s ())

/-- `DebugResourceType` (header, lines 148-153). -/
inductive DebugResourceType where
  | kTexture
  | kBuffer
  | kProgram
  | kShader
deriving DecidableEq, Repr

/-- A driver call observable from `SetDebugLabel`: the labeling entry point
applied to a resource identifier and label. -/
inductive DriverCall where
  | objectLabel (ty : DebugResourceType) (name : Int) (label : String)
deriving DecidableEq, Repr

/-- Modelled from the spec: `SetDebugLabel` is only declared in the header
(lines 180-182); its body is not part of the excerpt.  Per the spec, when the
debug-labeling extension is unavailable (labeling slot unresolved, or the
Driver Description reports the capability absent) the call is a silent no-op:
no driver call, no state change, no fatal diagnostic, a normal return;
otherwise it issues the labeling call.  The result is the list of driver calls
issued paired with whether a fatal diagnostic occurred. -/
def SetDebugLabel (labelSlotAvailable : Bool) (capabilityPresent : Bool)
    (ty : DebugResourceType) (name : Int) (label : String) :
    List DriverCall × Bool :=
  if labelSlotAvailable && capabilityPresent then
    ([DriverCall.objectLabel ty name label], false)
  else
    ([], false)

/-! ## Theorems -/

/-- Helper: the validity flag computed by construction, as a predicate over the
resolver restricted to the core names. -/
theorem constructTable_isValid_eq (r : String → Option Nat) :
    (constructTable r).IsValid =
      coreProcNames.all (fun n => (r ("gl" ++ n)).isSome) := by
  simp only [constructTable, ProcTableGLES.IsValid, Slot.IsAvailable,
    resolveSlot, declareSlot]
  induction coreProcNames with
  | nil => rfl
  | cons n ns ih => simp [List.all_cons, ih]

/-- C1: IsValid() is true iff every core slot resolved to a non-null pointer
during construction, and resolution results for extension symbols (anything
outside the prefixed core names) never change the value IsValid() returns. -/
theorem isValid_iff_core_resolved (r1 r2 : String → Option Nat)
    (hcore : ∀ n ∈ coreProcNames, r1 ("gl" ++ n) = r2 ("gl" ++ n)) :
    ((constructTable r1).IsValid = true ↔
      ∀ n ∈ coreProcNames, (r1 ("gl" ++ n)).isSome = true) ∧
    (constructTable r1).IsValid = (constructTable r2).IsValid := by
  constructor
  · rw [constructTable_isValid_eq]
    exact List.all_eq_true
  · rw [constructTable_isValid_eq, constructTable_isValid_eq]
    rw [Bool.eq_iff_iff, List.all_eq_true, List.all_eq_true]
    constructor
    · intro h n hn
      rw [← hcore n hn]
      exact h n hn
    · intro h n hn
      rw [hcore n hn]
      exact h n hn

/-- Witness for C1: a resolver resolving everything, and one that fails only
on the extension symbol glObjectLabelKHR, yield the same (true) validity. -/
theorem isValid_iff_core_resolved_w :
    ((constructTable (fun _ => some 1)).IsValid = true ↔
      ∀ n ∈ coreProcNames,
        ((fun _ : String => some 1) ("gl" ++ n)).isSome = true) ∧
    (constructTable (fun _ => some 1)).IsValid =
      (constructTable
        (fun s => if s = "glObjectLabelKHR" then none else some 1)).IsValid :=
  isValid_iff_core_resolved (fun _ => some 1)
    (fun s => if s = "glObjectLabelKHR" then none else some 1) (by decide)

/-- C2: with the function pointer bound, the call operator invokes the
underlying function exactly once; with a non-null error-query binding it then
invokes the error-query exactly once after the call, and returns the
underlying result unchanged when the query reports GL_NO_ERROR; with a null
error-query binding the query is never invoked and the result is still
returned unchanged. -/
theorem callOp_transparent {α β : Type} (p : GLProc α β) (f : α → β)
    (q : Unit → Nat) (arg : α) (hf : p.function = some f) :
    (p.error_fn = some q →
      (p.callOp arg).2 = [GLEvent.fnCall, GLEvent.errQuery] ∧
      (q () = GL_NO_ERROR → (p.callOp arg).1 = Outcome.ok (f arg))) ∧
    (p.error_fn = none →
      (p.callOp arg).2 = [GLEvent.fnCall] ∧
      (p.callOp arg).1 = Outcome.ok (f arg)) := by
  constructor
  · intro hq
    by_cases he : q () = GL_NO_ERROR <;>
      simp [GLProc.callOp, hf, hq, AutoErrorCheck.destruct, he]
  · intro hq
    simp [GLProc.callOp, hf, hq, AutoErrorCheck.destruct]

/-- Witness for C2: a slot returning 7 with an error-query reporting
GL_NO_ERROR returns 7 with the trace call-then-query. -/
theorem callOp_transparent_w :
    (GLProc.callOp
      { name := some "glCreateProgram",
        function := some (fun _ : Unit => (7 : Nat)),
        error_fn := some (fun _ => GL_NO_ERROR) } ()).2 =
        [GLEvent.fnCall, GLEvent.errQuery] ∧
    (GLProc.callOp
      { name := some "glCreateProgram",
        function := some (fun _ : Unit => (7 : Nat)),
        error_fn := some (fun _ => GL_NO_ERROR) } ()).1 = Outcome.ok 7 := by
  have h := (callOp_transparent
    { name := some "glCreateProgram",
      function := some (fun _ : Unit => (7 : Nat)),
      error_fn := some (fun _ => GL_NO_ERROR) }
    (fun _ : Unit => (7 : Nat)) (fun _ => GL_NO_ERROR) () rfl).1 rfl
  exact ⟨h.1, h.2 rfl⟩

/-- C3: on scope exit with a non-null error-query pointer the query is
invoked, and any reported value other than GL_NO_ERROR terminates fatally
with the diagnostic built from the translated error string, the raw code and
the guarded call name; with a null error-query pointer scope exit does
nothing. -/
theorem autoErrorCheck_destruct_spec (a : AutoErrorCheck) :
    (a.error_fn = none → a.destruct = (false, none)) ∧
    (∀ q, a.error_fn = some q →
      a.destruct.1 = true ∧
      (q () = GL_NO_ERROR → a.destruct.2 = none) ∧
      (q () ≠ GL_NO_ERROR →
        a.destruct.2 = some (glFatalMessage (q ()) a.name))) := by
  constructor
  · intro h
    simp [AutoErrorCheck.destruct, h]
  · intro q hq
    by_cases he : q () = GL_NO_ERROR <;>
      simp [AutoErrorCheck.destruct, hq, he]

/-- Witness for C3: an error-query reporting GL_INVALID_ENUM (1280) on exit
produces the fatal diagnostic for the guarded call glBindBuffer. -/
theorem autoErrorCheck_destruct_spec_w :
    (AutoErrorCheck.mk (some (fun _ => 1280)) "glBindBuffer").destruct.1
        = true ∧
    (AutoErrorCheck.mk (some (fun _ => 1280)) "glBindBuffer").destruct.2
        = some (glFatalMessage 1280 "glBindBuffer") := by
  have h := (autoErrorCheck_destruct_spec
    (AutoErrorCheck.mk (some (fun _ => 1280)) "glBindBuffer")).2
    (fun _ => 1280) rfl
  exact ⟨h.1, h.2.2 (by decide)⟩

/-- C4: SetDebugLabel with the labeling extension unavailable (slot
unresolved or capability absent) issues no driver call, raises no fatal
diagnostic, changes nothing, and returns normally, for every resource type,
handle and label. -/
theorem setDebugLabel_noop_when_unavailable (avail cap : Bool)
    (ty : DebugResourceType) (name : Int) (label : String)
    (h : avail = false ∨ cap = false) :
    SetDebugLabel avail cap ty name label = ([], false) := by
  rcases h with h | h <;> simp [SetDebugLabel, h]

/-- Witness for C4: labeling a texture with the slot unresolved is a no-op. -/
theorem setDebugLabel_noop_when_unavailable_w :
    SetDebugLabel false true DebugResourceType.kTexture 42 "label"
      = ([], false) :=
  setDebugLabel_noop_when_unavailable false true DebugResourceType.kTexture
    42 "label" (Or.inl rfl)

/-- C5: IsCurrentFramebufferComplete() returns true exactly when the
completeness-status slot is available and reports GL_FRAMEBUFFER_COMPLETE;
it returns false for every other reported value and when the slot is
unavailable. -/
theorem isCurrentFramebufferComplete_spec (s : Option (Unit → Nat)) :
    IsCurrentFramebufferComplete s = true ↔
      ∃ q, s = some q ∧ q () = GL_FRAMEBUFFER_COMPLETE := by
  cases s <;> simp [IsCurrentFramebufferComplete]

/-- C6: Reset clears name, function pointer and error-query binding, and the
availability predicate becomes false. -/
theorem reset_clears_slot {α β : Type} (p : GLProc α β) :
    p.Reset.name = none ∧ p.Reset.function = none ∧
    p.Reset.error_fn = none ∧ p.Reset.IsAvailable = false := by
  simp [GLProc.Reset, GLProc.IsAvailable]

/-- C7: the error translator is a pure total function; the same code always
yields the same string, every code outside the known enumeration yields the
generic unknown string, and every known code yields a non-generic string. -/
theorem glErrorToString_spec (value : Nat) :
    (value ∉ knownGLErrorCodes →
      GLErrorToString value = unknownGLErrorString) ∧
    (∀ w, value = w → GLErrorToString value = GLErrorToString w) ∧
    (value ∈ knownGLErrorCodes →
      GLErrorToString value ≠ unknownGLErrorString) := by
  refine ⟨?_, fun w hw => by rw [hw], ?_⟩
  · intro h
    simp [knownGLErrorCodes] at h
    obtain ⟨h0, h1, h2, h3, h4, h5, h6, h7⟩ := h
    simp [GLErrorToString, h0, h1, h2, h3, h4, h5, h6, h7]
  · intro h
    simp [knownGLErrorCodes] at h
    rcases h with h | h | h | h | h | h | h | h <;> subst h <;> decide

/-- Witness for C7: the unrecognized code 42 yields the generic unknown
string. -/
theorem glErrorToString_spec_w :
    GLErrorToString 42 = unknownGLErrorString :=
  (glErrorToString_spec 42).1 (by decide)

/-- C8: every declared slot, core and extension alike, is created with its
name set to the gl-prefixed symbol name, a null function pointer and a null
error-query binding; and after construction every slot still carries the
prefixed name and a null error-query binding (error checking is opt-in). -/
theorem slots_declared_defaults (r : String → Option Nat) :
    (∀ d ∈ declaredSlots,
      d.2.name = some ("gl" ++ d.1) ∧ d.2.function = none ∧
      d.2.error_fn = none) ∧
    (∀ e ∈ (constructTable r).coreSlots ++ (constructTable r).extSlots,
      e.2.name = some ("gl" ++ e.1) ∧ e.2.error_fn = none) := by
  constructor
  · intro d hd
    simp only [declaredSlots, List.mem_map] at hd
    obtain ⟨n, _, rfl⟩ := hd
    simp [declareSlot]
  · intro e he
    simp only [constructTable, List.mem_append, List.mem_map] at he
    rcases he with ⟨n, _, rfl⟩ | ⟨n, _, rfl⟩ <;>
      simp [resolveSlot, declareSlot]

/-- Witness for C8: the first declared slot, glActiveTexture, has the
prefixed name and null pointers. -/
theorem slots_declared_defaults_w :
    (declareSlot "ActiveTexture").name = some ("gl" ++ "ActiveTexture") ∧
    (declareSlot "ActiveTexture").function = none ∧
    (declareSlot "ActiveTexture").error_fn = none :=
  (slots_declared_defaults (fun _ => none)).1
    ("ActiveTexture", declareSlot "ActiveTexture") (by decide)

/-- C9: with every framebuffer-introspection slot unavailable,
DescribeCurrentFramebuffer() still returns (total, no crash) and yields the
defined no-information description. -/
theorem describeFramebuffer_unavailable :
    DescribeCurrentFramebuffer none none = noFramebufferInfoString := rfl

/-- C10: the call operator performs no availability guard: a null function
pointer is dereferenced (undefined behavior), and a non-null function pointer
is invoked unconditionally, whatever the error-query binding. -/
theorem callOp_no_guard {α β : Type} (p : GLProc α β) (arg : α) :
    (p.function = none → p.callOp arg = (Outcome.nullDeref, [])) ∧
    (∀ f, p.function = some f → GLEvent.fnCall ∈ (p.callOp arg).2) := by
  constructor
  · intro h
    simp [GLProc.callOp, h]
  · intro f hf
    rcases he : p.error_fn with _ | q
    · simp [GLProc.callOp, hf, he, AutoErrorCheck.destruct]
    · by_cases hv : q () = GL_NO_ERROR <;>
        simp [GLProc.callOp, hf, he, AutoErrorCheck.destruct, hv]

/-- Witness for C10: invoking a slot whose function pointer is null yields
the undefined-behavior outcome. -/
theorem callOp_no_guard_w :
    GLProc.callOp
      ({ name := some "glClear", function := none, error_fn := none } :
        GLProc Nat Nat) 0 = (Outcome.nullDeref, []) :=
  (callOp_no_guard
    ({ name := some "glClear", function := none, error_fn := none } :
      GLProc Nat Nat) 0).1 rfl

end ProcTableGles
